import Mathlib

set_option maxHeartbeats 1000000

/-!
Shallow embedding of the Primed Listening content script
(`src/content.js`, together with the earlier variant of the same script in
`src/unnamed/part_002`): a subtitle-driven auto-pause state machine for
video playback.  JavaScript numbers used for the timing arithmetic are
modelled as rationals, strings as Lean strings, `setTimeout` handles as
natural-number ids recorded in an explicit list of armed timers, and the
DOM side effects (video pause/play, subtitle visibility, Netflix UI
suppression, on-screen notifications) as explicit fields of a system
state that each event handler transforms.
-/

/-- Keyboard chord configuration for the toggle hotkey
(the `settings.hotkey` object in `content.js`). -/
structure Hotkey where
  code : String
  ctrlKey : Bool
  altKey : Bool
  shiftKey : Bool
  metaKey : Bool
deriving DecidableEq

/-- Tunable settings of the content script (the global `settings` object in
`content.js`, after `loadSettings` applied the storage defaults).  The
`part_002` variant has the same object minus `max_pause`; the model keeps
one structure and the variant simply never reads `max_pause`. -/
structure Settings where
  pause_per_char : ℚ
  min_pause : ℚ
  max_pause : ℚ
  min_chars : ℕ
  hide_subs : Bool
  hotkey : Hotkey
deriving DecidableEq

/-- Mutable playback state of the script (the global `state` object in
`content.js`). -/
structure PlayState where
  enabled : Bool
  isAutoPaused : Bool
  isPauseLocked : Bool
  timerId : Option ℕ
  lastSubText : String
  uiHidden : Bool
deriving DecidableEq

/-- Supported video sites (the two entries of `PLATFORMS` in
`content.js`). -/
inductive Site where
  | youtube
  | netflix
deriving DecidableEq

/-- Keyboard event as seen by the `keydown` listener. -/
structure KeyEv where
  code : String
  key : String
  ctrlKey : Bool
  altKey : Bool
  shiftKey : Bool
  metaKey : Bool
deriving DecidableEq

/-- Whole observable system: script state plus the DOM facts the script
reads and writes.  `armed` lists the pending `setTimeout` resume timers as
(id, duration-in-seconds) pairs, `nextId` is the next fresh timer handle,
`osd` logs the messages shown by `showOSD`, and `pauseCount`/`playCount`
count the `video.pause()` / `video.play()` calls issued. -/
structure Sys where
  settings : Settings
  st : PlayState
  site : Site
  videoPaused : Bool
  subsVisible : Bool
  armed : List (ℕ × ℚ)
  nextId : ℕ
  osd : List String
  pauseCount : ℕ
  playCount : ℕ
deriving DecidableEq

/-- Characters matched by the JavaScript regular-expression class `\s`
(ECMAScript WhiteSpace plus LineTerminator). -/
def isJsWhitespace (c : Char) : Bool :=
  c = '\t' || c = '\n' || c = '\x0b' || c = '\x0c' || c = '\r' || c = ' ' ||
  c.toNat = 0xA0 || c.toNat = 0x1680 ||
  (0x2000 ≤ c.toNat && c.toNat ≤ 0x200A) ||
  c.toNat = 0x2028 || c.toNat = 0x2029 || c.toNat = 0x202F ||
  c.toNat = 0x205F || c.toNat = 0x3000 || c.toNat = 0xFEFF

/-- Behaviour of `String.prototype.trim`: strip leading and trailing
whitespace and line terminators. -/
def trimJs (s : String) : String :=
  ⟨((s.data.dropWhile isJsWhitespace).reverse.dropWhile isJsWhitespace).reverse⟩

/-- Scan forward for the given closing delimiter; on success return the
suffix just after it.  This is the shape of one lazy regex match
`X.*?Y` starting at an opener. -/
def dropThrough (close : Char) : List Char → Option (List Char)
  | [] => none
  | c :: rest => if c = close then some rest else dropThrough close rest

/-- Look up a character among the opening delimiters of `pairs` and return
the matching closing delimiter. -/
def findClose (pairs : List (Char × Char)) (c : Char) : Option Char :=
  match pairs.find? (fun p => p.1 = c) with
  | some p => some p.2
  | none => none

/-- Fuelled left-to-right global replacement of every lazily matched
delimited group by the empty string, as performed by
`replace(/\x7b.*?\x7d/g, "")` and `replace(/\(.*?\)|（.*?）/g, "")`:
at each position, an opening delimiter with a closing delimiter somewhere
to its right deletes everything through the first such closer; any other
character is kept.  The fuel only needs to bound the list length. -/
def stripPairsAux (pairs : List (Char × Char)) : ℕ → List Char → List Char
  | 0, l => l
  | _ + 1, [] => []
  | fuel + 1, c :: rest =>
    match findClose pairs c with
    | some cl =>
      match dropThrough cl rest with
      | some rest2 => stripPairsAux pairs fuel rest2
      | none => c :: stripPairsAux pairs fuel rest
    | none => c :: stripPairsAux pairs fuel rest

/-- Global lazy delimited-group removal (see `stripPairsAux`). -/
def stripPairs (pairs : List (Char × Char)) (l : List Char) : List Char :=
  stripPairsAux pairs l.length l

/-- Translation of `getVisibleCharCount` from `content.js` (identical in
`part_002`): drop `\n`/`\r`, drop all whitespace, strip `\x7b...\x7d`
annotation groups, then strip ASCII and fullwidth parenthesis groups, and
count what remains. -/
def getVisibleCharCount (text : String) : ℕ :=
  if text = "" then 0
  else
    let l1 := text.data.filter (fun c => !(c = '\n' || c = '\r'))
    let l2 := l1.filter (fun c => !isJsWhitespace c)
    let l3 := stripPairs [('\x7b', '\x7d')] l2
    let l4 := stripPairs [('(', ')'), ('（', '）')] l3
    l4.length

/-- Cancellation of the tracked resume timer, as done by the statement
`if (state.timerId) clearTimeout(state.timerId); state.timerId = null;`
at the top of `resumePlayback` (and, guarded, in `lockPause`): the tracked
handle is removed from the armed-timer list and forgotten. -/
def clearTimer (s : Sys) : Sys :=
  match s.st.timerId with
  | some t =>
    { s with st := { s.st with timerId := none },
             armed := s.armed.filter (fun p => p.1 != t) }
  | none => { s with st := { s.st with timerId := none } }

/-- Translation of `toggleSubtitles` from `content.js`: a no-op unless the
hide-subs feature is on or visibility is being forced, otherwise sets the
subtitle visibility. -/
def toggleSubtitles (forceVisible : Bool) (s : Sys) : Sys :=
  if s.settings.hide_subs = false ∧ forceVisible = false then s
  else { s with subsVisible := forceVisible }

/-- Per-site `toggleUI` from the `PLATFORMS` table: on Netflix it sets the
`pl-netflix-ui-hidden` class and records that in `state.uiHidden`; on
YouTube it does nothing. -/
def applyToggleUI (hide : Bool) (s : Sys) : Sys :=
  match s.site with
  | Site.netflix => { s with st := { s.st with uiHidden := hide } }
  | Site.youtube => s

/-- Translation of `restoreUI` from `content.js`: un-hide the platform UI
if this script hid it. -/
def restoreUI (s : Sys) : Sys :=
  if s.st.uiHidden = true then applyToggleUI false s else s

/-- Translation of `resumePlayback` from `content.js`: clear the resume
timer, drop the auto-pause and lock flags, re-hide subtitles when the
hide-subs feature is on, and call `video.play()`.  The promise returned by
`play()` may reject; the script attaches `.catch(() => {})`, so a
rejection (`playOk = false`) leaves the video paused and has no other
effect whatsoever. -/
def resumePlayback (playOk : Bool) (s : Sys) : Sys :=
  let s1 := clearTimer s
  let s2 := { s1 with st :=
    { s1.st with isAutoPaused := false, isPauseLocked := false } }
  let s3 := if s2.settings.hide_subs = true then toggleSubtitles false s2 else s2
  { s3 with playCount := s3.playCount + 1,
            videoPaused := if playOk then false else s3.videoPaused }

/-- Translation of `lockPause` from `content.js`: cancel the resume timer,
set the lock flag and show the \x22|| Pause Locked\x22 notification. -/
def lockPause (s : Sys) : Sys :=
  let s1 := clearTimer s
  { s1 with st := { s1.st with isPauseLocked := true },
            osd := s1.osd ++ ["|| Pause Locked"] }

/-- Pause-duration computation of `handleSubtitle` in `content.js`:
`Math.max(min_pause, chars * pause_per_char)` followed by the cap
`Math.min(max_pause, duration)`. -/
def computeDuration (st : Settings) (chars : ℕ) : ℚ :=
  min st.max_pause (max st.min_pause ((chars : ℚ) * st.pause_per_char))

/-- Pause-duration computation of `handleSubtitle` in the `part_002`
variant, which has no `max_pause` cap. -/
def computeDurationV2 (st : Settings) (chars : ℕ) : ℚ :=
  max st.min_pause ((chars : ℚ) * st.pause_per_char)

/-- Translation of `handleSubtitle` from `content.js`: ignore the event if
disabled or the text is empty; deduplicate against `lastSubText`; record
the trimmed text as the new `lastSubText` (the source does this BEFORE the
`min_chars` test); drop lines with fewer than `min_chars` visible
characters; otherwise set the auto-pause flag, hide the platform UI, pause
the video, reveal subtitles when hide-subs is on, and arm a fresh resume
timer for the computed duration.  Note the source does not cancel a
previously armed timer here. -/
def handleSubtitle (text : String) (s : Sys) : Sys :=
  if s.st.enabled = false ∨ text = "" then s
  else if trimJs text = s.st.lastSubText then s
  else
    let s1 := { s with st := { s.st with lastSubText := trimJs text } }
    let chars := getVisibleCharCount (trimJs text)
    if chars < s.settings.min_chars then s1
    else
      let duration := computeDuration s1.settings chars
      let s2 := { s1 with st := { s1.st with isAutoPaused := true } }
      let s3 := applyToggleUI true s2
      let s4 := { s3 with videoPaused := true, pauseCount := s3.pauseCount + 1 }
      let s5 := if s4.settings.hide_subs = true then toggleSubtitles true s4 else s4
      { s5 with st := { s5.st with timerId := some s5.nextId },
                armed := (s5.nextId, duration) :: s5.armed,
                nextId := s5.nextId + 1 }

/-- Translation of `handleSubtitle` from the `part_002` variant: identical
control flow, but the duration has no `max_pause` cap and there is no
platform-UI suppression call. -/
def handleSubtitleV2 (text : String) (s : Sys) : Sys :=
  if s.st.enabled = false ∨ text = "" then s
  else if trimJs text = s.st.lastSubText then s
  else
    let s1 := { s with st := { s.st with lastSubText := trimJs text } }
    let chars := getVisibleCharCount (trimJs text)
    if chars < s.settings.min_chars then s1
    else
      let duration := computeDurationV2 s1.settings chars
      let s2 := { s1 with st := { s1.st with isAutoPaused := true } }
      let s4 := { s2 with videoPaused := true, pauseCount := s2.pauseCount + 1 }
      let s5 := if s4.settings.hide_subs = true then toggleSubtitles true s4 else s4
      { s5 with st := { s5.st with timerId := some s5.nextId },
                armed := (s5.nextId, duration) :: s5.armed,
                nextId := s5.nextId + 1 }

/-- Translation of the MutationObserver callback from `content.js`: bail
out when disabled, or when the video is paused and this script is not the
one holding the pause; otherwise extract the current text and hand any
nonempty text to `handleSubtitle`. -/
def observerStep (text : String) (s : Sys) : Sys :=
  if s.st.enabled = false ∨ (s.videoPaused = true ∧ s.st.isAutoPaused = false)
  then s
  else if text = "" then s
  else handleSubtitle text s

/-- Translation of the `keydown` listener from `content.js`: restore the
platform UI, handle the configurable toggle chord (flipping `enabled`,
with cleanup on disable and re-application of the hide-subs policy on
enable), and, while enabled and auto-paused, let the fixed interaction
keys (Space, k, p) lock the pause or release the lock. -/
def keydownStep (e : KeyEv) (playOk : Bool) (s : Sys) : Sys :=
  let s0 := restoreUI s
  if e.code = s0.settings.hotkey.code ∧ e.ctrlKey = s0.settings.hotkey.ctrlKey ∧
     e.altKey = s0.settings.hotkey.altKey ∧ e.shiftKey = s0.settings.hotkey.shiftKey ∧
     e.metaKey = s0.settings.hotkey.metaKey then
    let s1 := { s0 with st := { s0.st with enabled := !s0.st.enabled } }
    let s2 := { s1 with osd := s1.osd ++
      [if s1.st.enabled then "Primed Listening: ON" else "Primed Listening: OFF"] }
    if s2.st.enabled = false then
      let s3 := if s2.st.isAutoPaused = true then resumePlayback playOk s2 else s2
      let s4 := toggleSubtitles true s3
      restoreUI s4
    else
      if s2.settings.hide_subs = true then toggleSubtitles false s2 else s2
  else if s0.st.enabled = false then s0
  else if (e.code = "Space" ∨ e.key = "k" ∨ e.key = "p") ∧ s0.st.isAutoPaused = true then
    if s0.st.isPauseLocked = false then lockPause s0
    else resumePlayback playOk s0
  else s0

/-- Firing of an armed resume timer: the timer is consumed and its
callback runs `resumePlayback`.  A handle that is no longer armed cannot
fire. -/
def timerFireStep (id : ℕ) (playOk : Bool) (s : Sys) : Sys :=
  match s.armed.find? (fun p => p.1 == id) with
  | none => s
  | some _ =>
    resumePlayback playOk { s with armed := s.armed.filter (fun p => p.1 != id) }

/-- Events the running script reacts to. -/
inductive Ev where
  | subtitle (text : String)
  | key (e : KeyEv) (playOk : Bool)
  | timerFire (id : ℕ) (playOk : Bool)

/-- One event-loop step. -/
def stepEv (e : Ev) (s : Sys) : Sys :=
  match e with
  | Ev.subtitle t => observerStep t s
  | Ev.key k ok => keydownStep k ok s
  | Ev.timerFire id ok => timerFireStep id ok s

/-- Default toggle hotkey of `content.js` (Alt + P). -/
def defaultHotkey : Hotkey :=
  { code := "KeyP", ctrlKey := false, altKey := true,
    shiftKey := false, metaKey := false }

/-- Settings after `loadSettings` ran against empty storage: the storage
defaults for the four timing/feature keys, and the initial literal for
`min_chars`, which `loadSettings` never overwrites. -/
def defaultSettings : Settings :=
  { pause_per_char := 6/100, min_pause := 1/2, max_pause := 10,
    min_chars := 2, hide_subs := false, hotkey := defaultHotkey }

/-- System state right after `startObserver` found the video and
`loadSettings` completed with `auto_enable = true` on a playing YouTube
video. -/
def initSys : Sys :=
  { settings := defaultSettings,
    st := { enabled := true, isAutoPaused := false, isPauseLocked := false,
            timerId := none, lastSubText := "", uiHidden := false },
    site := Site.youtube,
    videoPaused := false, subsVisible := true,
    armed := [], nextId := 1, osd := ["Primed Listening Ready"],
    pauseCount := 0, playCount := 0 }

/-- Run a list of events from the initial state. -/
def runEvents (evs : List Ev) : Sys :=
  evs.foldl (fun s e => stepEv e s) initSys

/-- States the event loop can reach from the initial state. -/
def Reachable (s : Sys) : Prop :=
  ∃ evs, runEvents evs = s

/-- Scheduled pause duration read off a transition: the duration of the
newly armed timer if the transition armed one, and `none` otherwise. -/
def scheduledOf (s s2 : Sys) : Option ℚ :=
  if s2.nextId = s.nextId then none
  else (s2.armed.head?).map (fun p => p.2)

/-- Pause duration scheduled by `handleSubtitle` of `content.js` on a
given settings/state/text triple. -/
def scheduledPauseV1 (text : String) (s : Sys) : Option ℚ :=
  scheduledOf s (handleSubtitle text s)

/-- Pause duration scheduled by `handleSubtitle` of the `part_002`
variant on a given settings/state/text triple. -/
def scheduledPauseV2 (text : String) (s : Sys) : Option ℚ :=
  scheduledOf s (handleSubtitleV2 text s)


theorem handleSubtitle_skip (s : Sys) (text : String)
    (h : s.st.enabled = false ∨ text = "") :
    handleSubtitle text s = s := by
  unfold handleSubtitle
  rw [if_pos h]

theorem handleSubtitle_same (s : Sys) (text : String)
    (h : trimJs text = s.st.lastSubText) :
    handleSubtitle text s = s := by
  unfold handleSubtitle
  by_cases h1 : s.st.enabled = false ∨ text = ""
  · rw [if_pos h1]
  · rw [if_neg h1, if_pos h]

theorem handleSubtitle_short (s : Sys) (text : String)
    (h1 : ¬(s.st.enabled = false ∨ text = ""))
    (h2 : trimJs text ≠ s.st.lastSubText)
    (h3 : getVisibleCharCount (trimJs text) < s.settings.min_chars) :
    handleSubtitle text s = { s with st := { s.st with lastSubText := trimJs text } } := by
  unfold handleSubtitle
  rw [if_neg h1, if_neg h2]
  dsimp only
  rw [if_pos h3]

theorem handleSubtitle_trigger (s : Sys) (text : String)
    (h1 : ¬(s.st.enabled = false ∨ text = ""))
    (h2 : trimJs text ≠ s.st.lastSubText)
    (h3 : ¬ getVisibleCharCount (trimJs text) < s.settings.min_chars) :
    (handleSubtitle text s).st.timerId = some s.nextId ∧
    (handleSubtitle text s).armed =
      (s.nextId, computeDuration s.settings (getVisibleCharCount (trimJs text))) :: s.armed ∧
    (handleSubtitle text s).pauseCount = s.pauseCount + 1 ∧
    (handleSubtitle text s).nextId = s.nextId + 1 ∧
    (handleSubtitle text s).st.isAutoPaused = true ∧
    (handleSubtitle text s).st.lastSubText = trimJs text ∧
    (handleSubtitle text s).st.enabled = s.st.enabled ∧
    (handleSubtitle text s).videoPaused = true ∧
    (handleSubtitle text s).osd = s.osd ∧
    (handleSubtitle text s).playCount = s.playCount := by
  unfold handleSubtitle
  rw [if_neg h1, if_neg h2]
  dsimp only
  rw [if_neg h3]
  cases hs : s.site <;>
    by_cases hh : s.settings.hide_subs = true <;>
      simp [applyToggleUI, toggleSubtitles, hs, hh]

theorem handleSubtitleV2_skip (s : Sys) (text : String)
    (h : s.st.enabled = false ∨ text = "") :
    handleSubtitleV2 text s = s := by
  unfold handleSubtitleV2
  rw [if_pos h]

theorem handleSubtitleV2_same (s : Sys) (text : String)
    (h : trimJs text = s.st.lastSubText) :
    handleSubtitleV2 text s = s := by
  unfold handleSubtitleV2
  by_cases h1 : s.st.enabled = false ∨ text = ""
  · rw [if_pos h1]
  · rw [if_neg h1, if_pos h]

theorem handleSubtitleV2_short (s : Sys) (text : String)
    (h1 : ¬(s.st.enabled = false ∨ text = ""))
    (h2 : trimJs text ≠ s.st.lastSubText)
    (h3 : getVisibleCharCount (trimJs text) < s.settings.min_chars) :
    handleSubtitleV2 text s = { s with st := { s.st with lastSubText := trimJs text } } := by
  unfold handleSubtitleV2
  rw [if_neg h1, if_neg h2]
  dsimp only
  rw [if_pos h3]

theorem handleSubtitleV2_trigger (s : Sys) (text : String)
    (h1 : ¬(s.st.enabled = false ∨ text = ""))
    (h2 : trimJs text ≠ s.st.lastSubText)
    (h3 : ¬ getVisibleCharCount (trimJs text) < s.settings.min_chars) :
    (handleSubtitleV2 text s).armed =
      (s.nextId, computeDurationV2 s.settings (getVisibleCharCount (trimJs text))) :: s.armed ∧
    (handleSubtitleV2 text s).nextId = s.nextId + 1 := by
  unfold handleSubtitleV2
  rw [if_neg h1, if_neg h2]
  dsimp only
  rw [if_neg h3]
  by_cases hh : s.settings.hide_subs = true <;>
    simp [toggleSubtitles, hh]

/-- Settings that separate the two script variants: the cap `max_pause`
is set to 1 second. -/
def cexSettings : Settings :=
  { defaultSettings with max_pause := 1 }

/-- Initial state carrying `cexSettings`. -/
def cexSys : Sys :=
  { initSys with settings := cexSettings }

/-- C10: the two content-script variants are NOT equivalent as functions to
the scheduled pause duration: with pause_per_char = 0.06, min_pause = 0.5,
max_pause = 1 and a 20-visible-character line, `handleSubtitle` of
`content.js` schedules a 1 s pause while `handleSubtitle` of
`src/unnamed/part_002` schedules 1.2 s. -/
theorem variants_duration_cex :
    scheduledPauseV1 "xxxxxxxxxxxxxxxxxxxx" cexSys = some 1 ∧
    scheduledPauseV2 "xxxxxxxxxxxxxxxxxxxx" cexSys = some (12/10) ∧
    ¬ ((1 : ℚ) = 12/10) := by
  have h1 : ¬(cexSys.st.enabled = false ∨ "xxxxxxxxxxxxxxxxxxxx" = "") := by decide
  have h2 : trimJs "xxxxxxxxxxxxxxxxxxxx" ≠ cexSys.st.lastSubText := by decide
  have h3 : ¬ getVisibleCharCount (trimJs "xxxxxxxxxxxxxxxxxxxx") <
      cexSys.settings.min_chars := by decide
  have hc : getVisibleCharCount (trimJs "xxxxxxxxxxxxxxxxxxxx") = 20 := by decide
  have hv1 := handleSubtitle_trigger cexSys "xxxxxxxxxxxxxxxxxxxx" h1 h2 h3
  have hv2 := handleSubtitleV2_trigger cexSys "xxxxxxxxxxxxxxxxxxxx" h1 h2 h3
  refine ⟨?_, ?_, by norm_num⟩
  · rw [scheduledPauseV1, scheduledOf, hv1.2.1, hv1.2.2.2.1, hc,
        if_neg (Nat.succ_ne_self cexSys.nextId)]
    show some (computeDuration cexSys.settings 20) = some 1
    rw [computeDuration]
    norm_num [cexSys, cexSettings, defaultSettings, min_def, max_def]
  · rw [scheduledPauseV2, scheduledOf, hv2.1, hv2.2, hc,
        if_neg (Nat.succ_ne_self cexSys.nextId)]
    show some (computeDurationV2 cexSys.settings 20) = some (12/10)
    rw [computeDurationV2]
    norm_num [cexSys, cexSettings, defaultSettings, max_def]

/-- C10 (amended): the `content.js` and `part_002` variants of
`handleSubtitle` have identical trigger and deduplication behaviour, and on
every (settings, state, text) triple the pause duration scheduled by
`content.js` is exactly the `part_002` duration capped at `max_pause`; in
particular the two agree whenever chars * pause_per_char does not exceed
`max_pause`. -/
theorem variants_duration_refinement (s : Sys) (text : String) :
    scheduledPauseV1 text s =
      (scheduledPauseV2 text s).map (fun d => min s.settings.max_pause d) := by
  by_cases h1 : s.st.enabled = false ∨ text = ""
  · rw [scheduledPauseV1, scheduledPauseV2, handleSubtitle_skip s text h1,
        handleSubtitleV2_skip s text h1]
    simp [scheduledOf]
  · by_cases h2 : trimJs text = s.st.lastSubText
    · rw [scheduledPauseV1, scheduledPauseV2, handleSubtitle_same s text h2,
          handleSubtitleV2_same s text h2]
      simp [scheduledOf]
    · by_cases h3 : getVisibleCharCount (trimJs text) < s.settings.min_chars
      · rw [scheduledPauseV1, scheduledPauseV2, handleSubtitle_short s text h1 h2 h3,
            handleSubtitleV2_short s text h1 h2 h3]
        simp [scheduledOf]
      · have hv1 := handleSubtitle_trigger s text h1 h2 h3
        have hv2 := handleSubtitleV2_trigger s text h1 h2 h3
        rw [scheduledPauseV1, scheduledPauseV2, scheduledOf, scheduledOf,
            hv1.2.1, hv1.2.2.2.1, hv2.1, hv2.2]
        simp [Nat.succ_ne_self, computeDuration, computeDurationV2]

@[simp] theorem clearTimer_timerId (s : Sys) : (clearTimer s).st.timerId = none := by
  unfold clearTimer
  cases h : s.st.timerId <;> rfl

@[simp] theorem clearTimer_enabled (s : Sys) : (clearTimer s).st.enabled = s.st.enabled := by
  unfold clearTimer
  cases h : s.st.timerId <;> rfl

@[simp] theorem clearTimer_isAutoPaused (s : Sys) :
    (clearTimer s).st.isAutoPaused = s.st.isAutoPaused := by
  unfold clearTimer
  cases h : s.st.timerId <;> rfl

@[simp] theorem clearTimer_isPauseLocked (s : Sys) :
    (clearTimer s).st.isPauseLocked = s.st.isPauseLocked := by
  unfold clearTimer
  cases h : s.st.timerId <;> rfl

@[simp] theorem clearTimer_lastSubText (s : Sys) :
    (clearTimer s).st.lastSubText = s.st.lastSubText := by
  unfold clearTimer
  cases h : s.st.timerId <;> rfl

@[simp] theorem clearTimer_uiHidden (s : Sys) :
    (clearTimer s).st.uiHidden = s.st.uiHidden := by
  unfold clearTimer
  cases h : s.st.timerId <;> rfl

@[simp] theorem clearTimer_settings (s : Sys) : (clearTimer s).settings = s.settings := by
  unfold clearTimer
  cases h : s.st.timerId <;> rfl

@[simp] theorem clearTimer_osd (s : Sys) : (clearTimer s).osd = s.osd := by
  unfold clearTimer
  cases h : s.st.timerId <;> rfl

@[simp] theorem clearTimer_playCount (s : Sys) : (clearTimer s).playCount = s.playCount := by
  unfold clearTimer
  cases h : s.st.timerId <;> rfl

@[simp] theorem clearTimer_pauseCount (s : Sys) : (clearTimer s).pauseCount = s.pauseCount := by
  unfold clearTimer
  cases h : s.st.timerId <;> rfl

@[simp] theorem clearTimer_videoPaused (s : Sys) :
    (clearTimer s).videoPaused = s.videoPaused := by
  unfold clearTimer
  cases h : s.st.timerId <;> rfl

@[simp] theorem clearTimer_subsVisible (s : Sys) :
    (clearTimer s).subsVisible = s.subsVisible := by
  unfold clearTimer
  cases h : s.st.timerId <;> rfl

@[simp] theorem clearTimer_nextId (s : Sys) : (clearTimer s).nextId = s.nextId := by
  unfold clearTimer
  cases h : s.st.timerId <;> rfl

@[simp] theorem clearTimer_site (s : Sys) : (clearTimer s).site = s.site := by
  unfold clearTimer
  cases h : s.st.timerId <;> rfl

theorem clearTimer_armed_length (s : Sys) :
    (clearTimer s).armed.length ≤ s.armed.length := by
  unfold clearTimer
  cases h : s.st.timerId
  · exact le_refl _
  · exact List.length_filter_le _ _

theorem clearTimer_tracked_removed (s : Sys) (t : ℕ) (d : ℚ)
    (h : s.st.timerId = some t) : (t, d) ∉ (clearTimer s).armed := by
  unfold clearTimer
  rw [h]
  simp [List.mem_filter]

@[simp] theorem toggleSubtitles_st (v : Bool) (s : Sys) :
    (toggleSubtitles v s).st = s.st := by
  unfold toggleSubtitles
  split <;> rfl

@[simp] theorem toggleSubtitles_settings (v : Bool) (s : Sys) :
    (toggleSubtitles v s).settings = s.settings := by
  unfold toggleSubtitles
  split <;> rfl

@[simp] theorem toggleSubtitles_armed (v : Bool) (s : Sys) :
    (toggleSubtitles v s).armed = s.armed := by
  unfold toggleSubtitles
  split <;> rfl

@[simp] theorem toggleSubtitles_osd (v : Bool) (s : Sys) :
    (toggleSubtitles v s).osd = s.osd := by
  unfold toggleSubtitles
  split <;> rfl

@[simp] theorem toggleSubtitles_playCount (v : Bool) (s : Sys) :
    (toggleSubtitles v s).playCount = s.playCount := by
  unfold toggleSubtitles
  split <;> rfl

@[simp] theorem toggleSubtitles_pauseCount (v : Bool) (s : Sys) :
    (toggleSubtitles v s).pauseCount = s.pauseCount := by
  unfold toggleSubtitles
  split <;> rfl

@[simp] theorem toggleSubtitles_videoPaused (v : Bool) (s : Sys) :
    (toggleSubtitles v s).videoPaused = s.videoPaused := by
  unfold toggleSubtitles
  split <;> rfl

@[simp] theorem toggleSubtitles_nextId (v : Bool) (s : Sys) :
    (toggleSubtitles v s).nextId = s.nextId := by
  unfold toggleSubtitles
  split <;> rfl

@[simp] theorem toggleSubtitles_site (v : Bool) (s : Sys) :
    (toggleSubtitles v s).site = s.site := by
  unfold toggleSubtitles
  split <;> rfl

@[simp] theorem toggleSubtitles_true_subsVisible (s : Sys) :
    (toggleSubtitles true s).subsVisible = true := by
  unfold toggleSubtitles
  rw [if_neg (fun h => Bool.noConfusion h.2)]

@[simp] theorem restoreUI_settings (s : Sys) : (restoreUI s).settings = s.settings := by
  unfold restoreUI applyToggleUI
  split
  · split <;> rfl
  · rfl

@[simp] theorem restoreUI_enabled (s : Sys) : (restoreUI s).st.enabled = s.st.enabled := by
  unfold restoreUI applyToggleUI
  split
  · split <;> rfl
  · rfl

@[simp] theorem restoreUI_isAutoPaused (s : Sys) :
    (restoreUI s).st.isAutoPaused = s.st.isAutoPaused := by
  unfold restoreUI applyToggleUI
  split
  · split <;> rfl
  · rfl

@[simp] theorem restoreUI_isPauseLocked (s : Sys) :
    (restoreUI s).st.isPauseLocked = s.st.isPauseLocked := by
  unfold restoreUI applyToggleUI
  split
  · split <;> rfl
  · rfl

@[simp] theorem restoreUI_timerId (s : Sys) :
    (restoreUI s).st.timerId = s.st.timerId := by
  unfold restoreUI applyToggleUI
  split
  · split <;> rfl
  · rfl

@[simp] theorem restoreUI_lastSubText (s : Sys) :
    (restoreUI s).st.lastSubText = s.st.lastSubText := by
  unfold restoreUI applyToggleUI
  split
  · split <;> rfl
  · rfl

@[simp] theorem restoreUI_armed (s : Sys) : (restoreUI s).armed = s.armed := by
  unfold restoreUI applyToggleUI
  split
  · split <;> rfl
  · rfl

@[simp] theorem restoreUI_osd (s : Sys) : (restoreUI s).osd = s.osd := by
  unfold restoreUI applyToggleUI
  split
  · split <;> rfl
  · rfl

@[simp] theorem restoreUI_playCount (s : Sys) : (restoreUI s).playCount = s.playCount := by
  unfold restoreUI applyToggleUI
  split
  · split <;> rfl
  · rfl

@[simp] theorem restoreUI_pauseCount (s : Sys) : (restoreUI s).pauseCount = s.pauseCount := by
  unfold restoreUI applyToggleUI
  split
  · split <;> rfl
  · rfl

@[simp] theorem restoreUI_videoPaused (s : Sys) :
    (restoreUI s).videoPaused = s.videoPaused := by
  unfold restoreUI applyToggleUI
  split
  · split <;> rfl
  · rfl

@[simp] theorem restoreUI_subsVisible (s : Sys) :
    (restoreUI s).subsVisible = s.subsVisible := by
  unfold restoreUI applyToggleUI
  split
  · split <;> rfl
  · rfl

@[simp] theorem restoreUI_nextId (s : Sys) : (restoreUI s).nextId = s.nextId := by
  unfold restoreUI applyToggleUI
  split
  · split <;> rfl
  · rfl

@[simp] theorem lockPause_isPauseLocked (s : Sys) :
    (lockPause s).st.isPauseLocked = true := by
  unfold lockPause
  simp

@[simp] theorem lockPause_timerId (s : Sys) : (lockPause s).st.timerId = none := by
  unfold lockPause
  simp

@[simp] theorem lockPause_enabled (s : Sys) : (lockPause s).st.enabled = s.st.enabled := by
  unfold lockPause
  simp

@[simp] theorem lockPause_isAutoPaused (s : Sys) :
    (lockPause s).st.isAutoPaused = s.st.isAutoPaused := by
  unfold lockPause
  simp

@[simp] theorem lockPause_lastSubText (s : Sys) :
    (lockPause s).st.lastSubText = s.st.lastSubText := by
  unfold lockPause
  simp

@[simp] theorem lockPause_settings (s : Sys) : (lockPause s).settings = s.settings := by
  unfold lockPause
  simp

@[simp] theorem lockPause_osd (s : Sys) :
    (lockPause s).osd = s.osd ++ ["|| Pause Locked"] := by
  unfold lockPause
  simp

@[simp] theorem lockPause_playCount (s : Sys) : (lockPause s).playCount = s.playCount := by
  unfold lockPause
  simp

@[simp] theorem lockPause_pauseCount (s : Sys) : (lockPause s).pauseCount = s.pauseCount := by
  unfold lockPause
  simp

@[simp] theorem lockPause_videoPaused (s : Sys) :
    (lockPause s).videoPaused = s.videoPaused := by
  unfold lockPause
  simp

@[simp] theorem lockPause_armed (s : Sys) : (lockPause s).armed = (clearTimer s).armed := by
  unfold lockPause
  simp

@[simp] theorem resumePlayback_timerId (ok : Bool) (s : Sys) :
    (resumePlayback ok s).st.timerId = none := by
  unfold resumePlayback
  by_cases hh : s.settings.hide_subs = true <;> simp [hh, toggleSubtitles]

@[simp] theorem resumePlayback_isAutoPaused (ok : Bool) (s : Sys) :
    (resumePlayback ok s).st.isAutoPaused = false := by
  unfold resumePlayback
  by_cases hh : s.settings.hide_subs = true <;> simp [hh, toggleSubtitles]

@[simp] theorem resumePlayback_isPauseLocked (ok : Bool) (s : Sys) :
    (resumePlayback ok s).st.isPauseLocked = false := by
  unfold resumePlayback
  by_cases hh : s.settings.hide_subs = true <;> simp [hh, toggleSubtitles]

@[simp] theorem resumePlayback_enabled (ok : Bool) (s : Sys) :
    (resumePlayback ok s).st.enabled = s.st.enabled := by
  unfold resumePlayback
  by_cases hh : s.settings.hide_subs = true <;> simp [hh, toggleSubtitles]

@[simp] theorem resumePlayback_lastSubText (ok : Bool) (s : Sys) :
    (resumePlayback ok s).st.lastSubText = s.st.lastSubText := by
  unfold resumePlayback
  by_cases hh : s.settings.hide_subs = true <;> simp [hh, toggleSubtitles]

@[simp] theorem resumePlayback_settings (ok : Bool) (s : Sys) :
    (resumePlayback ok s).settings = s.settings := by
  unfold resumePlayback
  by_cases hh : s.settings.hide_subs = true <;> simp [hh, toggleSubtitles]

@[simp] theorem resumePlayback_osd (ok : Bool) (s : Sys) :
    (resumePlayback ok s).osd = s.osd := by
  unfold resumePlayback
  by_cases hh : s.settings.hide_subs = true <;> simp [hh, toggleSubtitles]

@[simp] theorem resumePlayback_playCount (ok : Bool) (s : Sys) :
    (resumePlayback ok s).playCount = s.playCount + 1 := by
  unfold resumePlayback
  by_cases hh : s.settings.hide_subs = true <;> simp [hh, toggleSubtitles]

@[simp] theorem resumePlayback_pauseCount (ok : Bool) (s : Sys) :
    (resumePlayback ok s).pauseCount = s.pauseCount := by
  unfold resumePlayback
  by_cases hh : s.settings.hide_subs = true <;> simp [hh, toggleSubtitles]

@[simp] theorem resumePlayback_nextId (ok : Bool) (s : Sys) :
    (resumePlayback ok s).nextId = s.nextId := by
  unfold resumePlayback
  by_cases hh : s.settings.hide_subs = true <;> simp [hh, toggleSubtitles]

@[simp] theorem resumePlayback_armed (ok : Bool) (s : Sys) :
    (resumePlayback ok s).armed = (clearTimer s).armed := by
  unfold resumePlayback
  by_cases hh : s.settings.hide_subs = true <;> simp [hh, toggleSubtitles]

@[simp] theorem resumePlayback_true_videoPaused (s : Sys) :
    (resumePlayback true s).videoPaused = false := by
  unfold resumePlayback
  by_cases hh : s.settings.hide_subs = true <;> simp [hh, toggleSubtitles]

@[simp] theorem resumePlayback_false_videoPaused (s : Sys) :
    (resumePlayback false s).videoPaused = s.videoPaused := by
  unfold resumePlayback
  by_cases hh : s.settings.hide_subs = true <;> simp [hh, toggleSubtitles]

theorem resumePlayback_st_eq (s : Sys) :
    (resumePlayback false s).st = (resumePlayback true s).st := by
  unfold resumePlayback
  by_cases hh : s.settings.hide_subs = true <;> simp [hh, toggleSubtitles]

theorem resumePlayback_armed_length (ok : Bool) (s : Sys) :
    (resumePlayback ok s).armed.length ≤ s.armed.length := by
  rw [resumePlayback_armed]
  exact clearTimer_armed_length s

theorem resumePlayback_tracked_removed (ok : Bool) (s : Sys) (t : ℕ) (d : ℚ)
    (h : s.st.timerId = some t) : (t, d) ∉ (resumePlayback ok s).armed := by
  rw [resumePlayback_armed]
  exact clearTimer_tracked_removed s t d h

theorem lockPause_tracked_removed (s : Sys) (t : ℕ) (d : ℚ)
    (h : s.st.timerId = some t) : (t, d) ∉ (lockPause s).armed := by
  rw [lockPause_armed]
  exact clearTimer_tracked_removed s t d h

theorem observerStep_guard (s : Sys) (text : String)
    (g : s.st.enabled = false ∨ (s.videoPaused = true ∧ s.st.isAutoPaused = false)) :
    observerStep text s = s := by
  unfold observerStep
  rw [if_pos g]

theorem observerStep_empty (s : Sys) (text : String) (h : text = "") :
    observerStep text s = s := by
  unfold observerStep
  by_cases g : s.st.enabled = false ∨ (s.videoPaused = true ∧ s.st.isAutoPaused = false)
  · rw [if_pos g]
  · rw [if_neg g, if_pos h]

theorem observerStep_run (s : Sys) (text : String)
    (g : ¬(s.st.enabled = false ∨ (s.videoPaused = true ∧ s.st.isAutoPaused = false)))
    (h : text ≠ "") :
    observerStep text s = handleSubtitle text s := by
  unfold observerStep
  rw [if_neg g, if_neg h]

theorem handleSubtitle_lastSubText (s : Sys) (text : String)
    (h1 : ¬(s.st.enabled = false ∨ text = ""))
    (h2 : trimJs text ≠ s.st.lastSubText) :
    (handleSubtitle text s).st.lastSubText = trimJs text := by
  by_cases h3 : getVisibleCharCount (trimJs text) < s.settings.min_chars
  · rw [handleSubtitle_short s text h1 h2 h3]
  · exact (handleSubtitle_trigger s text h1 h2 h3).2.2.2.2.2.1

theorem handleSubtitle_enabled (s : Sys) (text : String) :
    (handleSubtitle text s).st.enabled = s.st.enabled := by
  by_cases h1 : s.st.enabled = false ∨ text = ""
  · rw [handleSubtitle_skip s text h1]
  · by_cases h2 : trimJs text = s.st.lastSubText
    · rw [handleSubtitle_same s text h2]
    · by_cases h3 : getVisibleCharCount (trimJs text) < s.settings.min_chars
      · rw [handleSubtitle_short s text h1 h2 h3]
      · exact (handleSubtitle_trigger s text h1 h2 h3).2.2.2.2.2.2.1

theorem handleSubtitle_pauseCount_le (s : Sys) (text : String) :
    (handleSubtitle text s).pauseCount ≤ s.pauseCount + 1 := by
  by_cases h1 : s.st.enabled = false ∨ text = ""
  · rw [handleSubtitle_skip s text h1]
    exact Nat.le_succ _
  · by_cases h2 : trimJs text = s.st.lastSubText
    · rw [handleSubtitle_same s text h2]
      exact Nat.le_succ _
    · by_cases h3 : getVisibleCharCount (trimJs text) < s.settings.min_chars
      · rw [handleSubtitle_short s text h1 h2 h3]
        exact Nat.le_succ _
      · exact le_of_eq (handleSubtitle_trigger s text h1 h2 h3).2.2.1

theorem handleSubtitle_idem (s : Sys) (text : String) :
    handleSubtitle text (handleSubtitle text s) = handleSubtitle text s := by
  by_cases h1 : s.st.enabled = false ∨ text = ""
  · rw [handleSubtitle_skip s text h1]
    exact handleSubtitle_skip s text h1
  · by_cases h2 : trimJs text = s.st.lastSubText
    · rw [handleSubtitle_same s text h2]
      exact handleSubtitle_same s text h2
    · exact handleSubtitle_same (handleSubtitle text s) text
        (handleSubtitle_lastSubText s text h1 h2).symm

theorem observerStep_pauseCount_le (s : Sys) (text : String) :
    (observerStep text s).pauseCount ≤ s.pauseCount + 1 := by
  by_cases g : s.st.enabled = false ∨ (s.videoPaused = true ∧ s.st.isAutoPaused = false)
  · rw [observerStep_guard s text g]
    exact Nat.le_succ _
  · by_cases h : text = ""
    · rw [observerStep_empty s text h]
      exact Nat.le_succ _
    · rw [observerStep_run s text g h]
      exact handleSubtitle_pauseCount_le s text

theorem observerStep_idem (s : Sys) (text : String) :
    observerStep text (observerStep text s) = observerStep text s := by
  by_cases g : s.st.enabled = false ∨ (s.videoPaused = true ∧ s.st.isAutoPaused = false)
  · rw [observerStep_guard s text g]
    exact observerStep_guard s text g
  · by_cases h : text = ""
    · rw [observerStep_empty s text h]
      exact observerStep_empty s text h
    · rw [observerStep_run s text g h]
      by_cases g2 : (handleSubtitle text s).st.enabled = false ∨
          ((handleSubtitle text s).videoPaused = true ∧
            (handleSubtitle text s).st.isAutoPaused = false)
      · exact observerStep_guard (handleSubtitle text s) text g2
      · rw [observerStep_run (handleSubtitle text s) text g2 h]
        exact handleSubtitle_idem s text

theorem keydownStep_lock (e : KeyEv) (ok : Bool) (s : Sys)
    (hen : s.st.enabled = true) (hap : s.st.isAutoPaused = true)
    (hnl : s.st.isPauseLocked = false)
    (hkey : e.code = "Space" ∨ e.key = "k" ∨ e.key = "p")
    (hnothot : ¬(e.code = s.settings.hotkey.code ∧ e.ctrlKey = s.settings.hotkey.ctrlKey ∧
      e.altKey = s.settings.hotkey.altKey ∧ e.shiftKey = s.settings.hotkey.shiftKey ∧
      e.metaKey = s.settings.hotkey.metaKey)) :
    keydownStep e ok s = lockPause (restoreUI s) := by
  unfold keydownStep
  dsimp only
  rw [if_neg (by simpa using hnothot), if_neg (by simp [hen]),
      if_pos ⟨hkey, by simp [hap]⟩, if_pos (by simp [hnl])]

theorem keydownStep_release (e : KeyEv) (ok : Bool) (s : Sys)
    (hen : s.st.enabled = true) (hap : s.st.isAutoPaused = true)
    (hl : s.st.isPauseLocked = true)
    (hkey : e.code = "Space" ∨ e.key = "k" ∨ e.key = "p")
    (hnothot : ¬(e.code = s.settings.hotkey.code ∧ e.ctrlKey = s.settings.hotkey.ctrlKey ∧
      e.altKey = s.settings.hotkey.altKey ∧ e.shiftKey = s.settings.hotkey.shiftKey ∧
      e.metaKey = s.settings.hotkey.metaKey)) :
    keydownStep e ok s = resumePlayback ok (restoreUI s) := by
  unfold keydownStep
  dsimp only
  rw [if_neg (by simpa using hnothot), if_neg (by simp [hen]),
      if_pos ⟨hkey, by simp [hap]⟩, if_neg (by simp [hl])]

theorem not_skip_cond (s : Sys) (text : String) (hen : s.st.enabled = true)
    (hne : text ≠ "") : ¬(s.st.enabled = false ∨ text = "") := by
  rintro (hf | hf)
  · rw [hen] at hf
    exact Bool.noConfusion hf
  · exact hne hf

/-- Concrete reachable-shape state: the script holds an auto-pause with one
resume timer (handle 1, one second) armed. -/
def pausedSys : Sys :=
  { initSys with
    st := { initSys.st with
            isAutoPaused := true
            timerId := some 1
            lastSubText := "first subtitle line" }
    videoPaused := true
    armed := [(1, 1)]
    nextId := 2
    pauseCount := 1 }

/-- Concrete auto-paused state whose dedup key is the short line "a". -/
def autoPausedShortSys : Sys :=
  { initSys with
    st := { initSys.st with
            isAutoPaused := true
            timerId := some 1
            lastSubText := "a" }
    videoPaused := true
    armed := [(1, 1)]
    nextId := 2
    pauseCount := 1 }

/-- Concrete state: the user paused the video manually (no auto-pause). -/
def userPausedSys : Sys :=
  { initSys with videoPaused := true }

/-- Space key press with no modifiers. -/
def spaceKey : KeyEv :=
  { code := "Space", key := " ", ctrlKey := false, altKey := false,
    shiftKey := false, metaKey := false }

/-- Alt+P key press, matching the default toggle hotkey. -/
def altPKey : KeyEv :=
  { code := "KeyP", key := "p", ctrlKey := false, altKey := true,
    shiftKey := false, metaKey := false }

/-- C1: every subtitle event that triggers a pause schedules a resume timer
whose duration is min(maxPause, max(minPause, chars * pausePerChar)), with
chars the visible character count of the trimmed text (newlines, all
whitespace, brace groups and ASCII/fullwidth parenthesis groups stripped);
on the default settings (pausePerChar = 0.06, minPause = 0.5,
maxPause = 10) the formula gives 1.2 for 20 chars, 0.5 for 2 chars and
10.0 for 1000 chars. -/
theorem pause_duration_formula :
    (∀ (s : Sys) (text : String),
      s.st.enabled = true → text ≠ "" →
      trimJs text ≠ s.st.lastSubText →
      s.settings.min_chars ≤ getVisibleCharCount (trimJs text) →
      (handleSubtitle text s).pauseCount = s.pauseCount + 1 ∧
      (handleSubtitle text s).st.timerId = some s.nextId ∧
      (handleSubtitle text s).armed.head? = some (s.nextId,
        min s.settings.max_pause (max s.settings.min_pause
          ((getVisibleCharCount (trimJs text) : ℚ) * s.settings.pause_per_char)))) ∧
    computeDuration defaultSettings 20 = 12/10 ∧
    computeDuration defaultSettings 2 = 5/10 ∧
    computeDuration defaultSettings 1000 = 10 := by
  refine ⟨?_, ?_, ?_, ?_⟩
  · intro s text hen hne hded hmin
    have hv := handleSubtitle_trigger s text (not_skip_cond s text hen hne) hded
      (Nat.not_lt.mpr hmin)
    exact ⟨hv.2.2.1, hv.1, by rw [hv.2.1]; rfl⟩
  · rw [computeDuration]
    norm_num [defaultSettings, min_def, max_def]
  · rw [computeDuration]
    norm_num [defaultSettings, min_def, max_def]
  · rw [computeDuration]
    norm_num [defaultSettings, min_def, max_def]

/-- C1 witness: on the initial default-settings state, a 20-character line
triggers a pause scheduled by the clamp formula. -/
theorem pause_duration_formula_witness :
    (handleSubtitle "xxxxxxxxxxxxxxxxxxxx" initSys).pauseCount = initSys.pauseCount + 1 ∧
    (handleSubtitle "xxxxxxxxxxxxxxxxxxxx" initSys).st.timerId = some initSys.nextId ∧
    (handleSubtitle "xxxxxxxxxxxxxxxxxxxx" initSys).armed.head? = some (initSys.nextId,
      min initSys.settings.max_pause (max initSys.settings.min_pause
        ((getVisibleCharCount (trimJs "xxxxxxxxxxxxxxxxxxxx") : ℚ) *
          initSys.settings.pause_per_char))) :=
  pause_duration_formula.1 initSys "xxxxxxxxxxxxxxxxxxxx" rfl (by decide) (by decide)
    (by decide)

/-- C2: false on `content.js` — a line below min_chars ("a", one visible
character, min_chars = 2) triggers no pause, yet `lastSubText` IS updated
from "" to "a", because the source assigns `state.lastSubText` before the
`min_chars` check. -/
theorem short_line_dedup_update_cex :
    initSys.st.lastSubText = "" ∧
    (handleSubtitle "a" initSys).pauseCount = 0 ∧
    (handleSubtitle "a" initSys).armed = [] ∧
    (handleSubtitle "a" initSys).st.lastSubText = "a" := by
  decide

/-- C2 (amended): a subtitle event whose visible character count is below
min_chars triggers no pause (no video.pause, no timer, flags untouched),
but `lastSubText` IS updated to the trimmed text before the min_chars
check; consequently an immediate repeat of the same too-short line is
deduplicated into a pure no-op (while a later longer line is still
evaluated normally, because deduplication only blocks exactly equal
text). -/
theorem short_line_no_pause_updates_key (s : Sys) (text : String)
    (hen : s.st.enabled = true) (hne : text ≠ "")
    (hded : trimJs text ≠ s.st.lastSubText)
    (hshort : getVisibleCharCount (trimJs text) < s.settings.min_chars) :
    (handleSubtitle text s).pauseCount = s.pauseCount ∧
    (handleSubtitle text s).armed = s.armed ∧
    (handleSubtitle text s).st.isAutoPaused = s.st.isAutoPaused ∧
    (handleSubtitle text s).st.timerId = s.st.timerId ∧
    (handleSubtitle text s).st.lastSubText = trimJs text ∧
    handleSubtitle text (handleSubtitle text s) = handleSubtitle text s := by
  have hs := handleSubtitle_short s text (not_skip_cond s text hen hne) hded hshort
  rw [hs]
  exact ⟨rfl, rfl, rfl, rfl, rfl, handleSubtitle_same _ text rfl⟩

/-- C2 witness: the too-short line "a" on the initial state. -/
theorem short_line_no_pause_updates_key_witness :
    (handleSubtitle "a" initSys).pauseCount = initSys.pauseCount ∧
    (handleSubtitle "a" initSys).armed = initSys.armed ∧
    (handleSubtitle "a" initSys).st.isAutoPaused = initSys.st.isAutoPaused ∧
    (handleSubtitle "a" initSys).st.timerId = initSys.st.timerId ∧
    (handleSubtitle "a" initSys).st.lastSubText = trimJs "a" ∧
    handleSubtitle "a" (handleSubtitle "a" initSys) = handleSubtitle "a" initSys :=
  short_line_no_pause_updates_key initSys "a" rfl (by decide) (by decide) (by decide)

/-- C8: a mutation batch arriving while the video is paused and the pause
is not held by the script (isAutoPaused = false) is discarded by the
observer guard: no subtitle event reaches the state machine and no pause
is triggered. -/
theorem observer_ignores_user_paused (s : Sys) (text : String)
    (hvp : s.videoPaused = true) (hnap : s.st.isAutoPaused = false) :
    observerStep text s = s ∧ (observerStep text s).pauseCount = s.pauseCount := by
  have h := observerStep_guard s text (Or.inr ⟨hvp, hnap⟩)
  exact ⟨h, by rw [h]⟩

/-- C8 witness: a fresh subtitle line while the user paused the video. -/
theorem observer_ignores_user_paused_witness :
    observerStep "a brand new line" userPausedSys = userPausedSys ∧
    (observerStep "a brand new line" userPausedSys).pauseCount = userPausedSys.pauseCount :=
  observer_ignores_user_paused userPausedSys "a brand new line" rfl rfl

/-- C9: a rejected `video.play()` promise in `resumePlayback` is silently
absorbed: compared with a successful resume it leaves exactly the same
playback state (timer cleared, auto-pause and lock flags dropped), shows no
message, arms no new timer and performs no retry; only the video element
stays paused. -/
theorem resume_rejection_swallowed (s : Sys) :
    (resumePlayback false s).st = (resumePlayback true s).st ∧
    (resumePlayback false s).st.timerId = none ∧
    (resumePlayback false s).st.isAutoPaused = false ∧
    (resumePlayback false s).st.isPauseLocked = false ∧
    (resumePlayback false s).osd = s.osd ∧
    (resumePlayback false s).armed = (resumePlayback true s).armed ∧
    (resumePlayback false s).armed.length ≤ s.armed.length ∧
    (resumePlayback false s).nextId = s.nextId ∧
    (resumePlayback false s).pauseCount = s.pauseCount ∧
    (resumePlayback false s).videoPaused = s.videoPaused := by
  refine ⟨resumePlayback_st_eq s, by simp, by simp, by simp, by simp, by simp,
    resumePlayback_armed_length false s, by simp, by simp, by simp⟩

/-- C3: false on `content.js` — `handleSubtitle` arms a new resume timer
without clearing the previous one, so after two consecutive subtitle
events with distinct long texts (the second arriving while the first pause
is still held) the reachable state has TWO armed resume timers pending. -/
theorem two_timers_armed_cex :
    Reachable (runEvents [Ev.subtitle "first subtitle line",
      Ev.subtitle "another longer line"]) ∧
    (runEvents [Ev.subtitle "first subtitle line",
      Ev.subtitle "another longer line"]).armed.length = 2 :=
  ⟨⟨_, rfl⟩, by decide⟩

/-- C3 (amended): the operations that disarm — `resumePlayback` and
`lockPause` — do first cancel and clear the tracked resume timer, and a
fired timer is consumed; but `handleSubtitle` arms a fresh resume timer
WITHOUT disarming a previously armed one: every triggering subtitle event
grows the number of pending resume timers by exactly one, so two
overlapping resume callbacks are pending after rapid consecutive
pauses. -/
theorem timer_arming_discipline :
    (∀ (s : Sys) (ok : Bool), (resumePlayback ok s).st.timerId = none ∧
      (resumePlayback ok s).armed.length ≤ s.armed.length) ∧
    (∀ s : Sys, (lockPause s).st.timerId = none ∧
      (lockPause s).armed.length ≤ s.armed.length) ∧
    (∀ (s : Sys) (text : String),
      s.st.enabled = true → text ≠ "" →
      trimJs text ≠ s.st.lastSubText →
      s.settings.min_chars ≤ getVisibleCharCount (trimJs text) →
      (handleSubtitle text s).armed.length = s.armed.length + 1) := by
  refine ⟨fun s ok => ⟨by simp, resumePlayback_armed_length ok s⟩,
    fun s => ⟨by simp, by rw [lockPause_armed]; exact clearTimer_armed_length s⟩,
    fun s text hen hne hded hmin => ?_⟩
  have hv := handleSubtitle_trigger s text (not_skip_cond s text hen hne) hded
    (Nat.not_lt.mpr hmin)
  rw [hv.2.1]
  rfl

/-- C3 witness: a second distinct long line arriving in the auto-paused
state with one armed timer leaves two armed timers; the resume action on
the same state clears the tracked timer. -/
theorem timer_arming_discipline_witness :
    (handleSubtitle "another longer line" pausedSys).armed.length =
      pausedSys.armed.length + 1 ∧
    (resumePlayback true pausedSys).st.timerId = none :=
  ⟨timer_arming_discipline.2.2 pausedSys "another longer line" rfl (by decide)
    (by decide) (by decide),
   (timer_arming_discipline.1 pausedSys true).1⟩

/-- C4: false on `content.js` — a subtitle event with a NEW long text
delivered while the script already holds the pause (isAutoPaused = true)
passes the observer guard and the dedup check and triggers a second
`video.pause()` with a second timer: after two distinct lines the pause
count is 2, the second issued while the state was already auto-paused. -/
theorem second_pause_while_autopaused_cex :
    (runEvents [Ev.subtitle "first subtitle line"]).st.isAutoPaused = true ∧
    (runEvents [Ev.subtitle "first subtitle line"]).videoPaused = true ∧
    (runEvents [Ev.subtitle "first subtitle line",
      Ev.subtitle "another longer line"]).pauseCount = 2 := by
  refine ⟨by decide, by decide, by decide⟩

/-- C4 (amended): while the script holds the pause, a subtitle event whose
trimmed text equals `lastSubText` is a pure no-op, and one whose visible
character count is below min_chars triggers no pause and keeps the state
auto-paused; only an event with genuinely new text of at least min_chars
visible characters pauses again and re-arms while already auto-paused. -/
theorem autopaused_reentry_guards (s : Sys) (text : String)
    (hap : s.st.isAutoPaused = true) :
    (trimJs text = s.st.lastSubText → observerStep text s = s) ∧
    (getVisibleCharCount (trimJs text) < s.settings.min_chars →
      (observerStep text s).pauseCount = s.pauseCount ∧
      (observerStep text s).armed = s.armed ∧
      (observerStep text s).st.isAutoPaused = true) := by
  constructor
  · intro h
    by_cases g : s.st.enabled = false ∨ (s.videoPaused = true ∧ s.st.isAutoPaused = false)
    · exact observerStep_guard s text g
    · by_cases he : text = ""
      · exact observerStep_empty s text he
      · rw [observerStep_run s text g he]
        exact handleSubtitle_same s text h
  · intro h3
    by_cases g : s.st.enabled = false ∨ (s.videoPaused = true ∧ s.st.isAutoPaused = false)
    · rw [observerStep_guard s text g]
      exact ⟨rfl, rfl, hap⟩
    · by_cases he : text = ""
      · rw [observerStep_empty s text he]
        exact ⟨rfl, rfl, hap⟩
      · rw [observerStep_run s text g he]
        by_cases h2 : trimJs text = s.st.lastSubText
        · rw [handleSubtitle_same s text h2]
          exact ⟨rfl, rfl, hap⟩
        · have h1 : ¬(s.st.enabled = false ∨ text = "") := fun hor =>
            g (hor.elim Or.inl (fun hf => absurd hf he))
          rw [handleSubtitle_short s text h1 h2 h3]
          exact ⟨rfl, rfl, hap⟩

/-- C4 witness: repeating the held line "a" while auto-paused is a no-op,
and it is too short to pause again. -/
theorem autopaused_reentry_guards_witness :
    observerStep "a" autoPausedShortSys = autoPausedShortSys ∧
    (observerStep "a" autoPausedShortSys).pauseCount = autoPausedShortSys.pauseCount :=
  ⟨(autopaused_reentry_guards autoPausedShortSys "a" rfl).1 (by decide),
   ((autopaused_reentry_guards autoPausedShortSys "a" rfl).2 (by decide)).1⟩

/-- C5: false as universally quantified — feeding the same string twice
does not always yield exactly one pause: the too-short line "a" fed twice
from the initial state yields zero pauses. -/
theorem same_text_twice_no_pause_cex :
    (runEvents [Ev.subtitle "a", Ev.subtitle "a"]).pauseCount = 0 := by
  decide

/-- C5 (amended): delivering the same subtitle text twice in a row yields
AT MOST one pause, and the second identical delivery is a pure no-op: it
returns the state of the first delivery unchanged, so the two deliveries
together issue at most one video.pause call (exactly one whenever the
first delivery triggered a pause). -/
theorem dedup_idempotent (s : Sys) (text : String) :
    observerStep text (observerStep text s) = observerStep text s ∧
    (observerStep text (observerStep text s)).pauseCount ≤ s.pauseCount + 1 := by
  refine ⟨observerStep_idem s text, ?_⟩
  rw [observerStep_idem s text]
  exact observerStep_pauseCount_le s text

/-- C6: in an auto-paused, unlocked, enabled state, one interaction key
(Space/k/p, not matching the toggle chord) cancels the resume timer, sets
the lock flag and shows the "|| Pause Locked" notification without
resuming; a second interaction key press then resumes playback immediately
and returns to Idle (flags cleared, timer still clear). -/
theorem interaction_key_locks_then_releases (s : Sys) (e : KeyEv) (t : ℕ) (d : ℚ)
    (hen : s.st.enabled = true) (hap : s.st.isAutoPaused = true)
    (hnl : s.st.isPauseLocked = false)
    (htid : s.st.timerId = some t)
    (hkey : e.code = "Space" ∨ e.key = "k" ∨ e.key = "p")
    (hnothot : ¬(e.code = s.settings.hotkey.code ∧ e.ctrlKey = s.settings.hotkey.ctrlKey ∧
      e.altKey = s.settings.hotkey.altKey ∧ e.shiftKey = s.settings.hotkey.shiftKey ∧
      e.metaKey = s.settings.hotkey.metaKey)) :
    (keydownStep e true s).st.isPauseLocked = true ∧
    (keydownStep e true s).st.isAutoPaused = true ∧
    (keydownStep e true s).st.timerId = none ∧
    (t, d) ∉ (keydownStep e true s).armed ∧
    "|| Pause Locked" ∈ (keydownStep e true s).osd ∧
    (keydownStep e true s).playCount = s.playCount ∧
    (keydownStep e true s).videoPaused = s.videoPaused ∧
    (keydownStep e true (keydownStep e true s)).st.isAutoPaused = false ∧
    (keydownStep e true (keydownStep e true s)).st.isPauseLocked = false ∧
    (keydownStep e true (keydownStep e true s)).st.timerId = none ∧
    (keydownStep e true (keydownStep e true s)).playCount = s.playCount + 1 ∧
    (keydownStep e true (keydownStep e true s)).videoPaused = false := by
  have h1 : keydownStep e true s = lockPause (restoreUI s) :=
    keydownStep_lock e true s hen hap hnl hkey hnothot
  have h2 : keydownStep e true (keydownStep e true s) =
      resumePlayback true (restoreUI (lockPause (restoreUI s))) := by
    rw [h1]
    exact keydownStep_release e true (lockPause (restoreUI s))
      (by simp [hen]) (by simp [hap]) (by simp) hkey (by simpa using hnothot)
  refine ⟨by rw [h1]; simp, by rw [h1]; simp [hap], by rw [h1]; simp, ?_,
    by rw [h1]; simp, by rw [h1]; simp, by rw [h1]; simp,
    by rw [h2]; simp, by rw [h2]; simp, by rw [h2]; simp,
    by rw [h2]; simp, by rw [h2]; simp⟩
  rw [h1, lockPause_armed]
  exact clearTimer_tracked_removed (restoreUI s) t d (by simp [htid])

/-- C6 witness: pressing Space twice in the concrete auto-paused state. -/
theorem interaction_key_locks_then_releases_witness :
    (keydownStep spaceKey true pausedSys).st.isPauseLocked = true ∧
    (1, (1 : ℚ)) ∉ (keydownStep spaceKey true pausedSys).armed ∧
    "|| Pause Locked" ∈ (keydownStep spaceKey true pausedSys).osd ∧
    (keydownStep spaceKey true (keydownStep spaceKey true pausedSys)).st.isAutoPaused
      = false ∧
    (keydownStep spaceKey true (keydownStep spaceKey true pausedSys)).playCount
      = pausedSys.playCount + 1 := by
  have h := interaction_key_locks_then_releases pausedSys spaceKey 1 1 rfl rfl rfl rfl
    (Or.inl rfl) (by decide)
  exact ⟨h.1, h.2.2.2.1, h.2.2.2.2.1, h.2.2.2.2.2.2.2.1, h.2.2.2.2.2.2.2.2.2.2.1⟩

/-- Concrete Locked state: the user locked the pause, so the resume timer
is already disarmed (`lockPause` cleared it) while both pause flags are
set. -/
def lockedSys : Sys :=
  { initSys with
    st := { initSys.st with
            isAutoPaused := true
            isPauseLocked := true
            timerId := none
            lastSubText := "first subtitle line" }
    videoPaused := true
    armed := []
    nextId := 2
    pauseCount := 1
    osd := ["Primed Listening Ready", "|| Pause Locked"] }

theorem clearTimer_armed_congr (s1 s2 : Sys)
    (ht : s1.st.timerId = s2.st.timerId) (ha : s1.armed = s2.armed) :
    (clearTimer s1).armed = (clearTimer s2).armed := by
  unfold clearTimer
  rw [ht, ha]
  cases h : s2.st.timerId <;> rfl

/-- C7: pressing the toggle hotkey while the system holds the pause —
AutoPaused (resume timer armed) or Locked (timer already disarmed by the
lock), both of which have isAutoPaused = true — disables it and
immediately resumes: the tracked resume timer is cancelled and cleared
(the armed-timer list becomes exactly what clearing the tracked timer
leaves), the auto-pause and lock flags drop, playback restarts, and
subtitles are forced visible — regardless of the remaining timer duration
or whether a timer is armed at all. -/
theorem disable_resumes_and_shows_subs (s : Sys) (e : KeyEv)
    (hen : s.st.enabled = true) (hap : s.st.isAutoPaused = true)
    (hhot : e.code = s.settings.hotkey.code ∧ e.ctrlKey = s.settings.hotkey.ctrlKey ∧
      e.altKey = s.settings.hotkey.altKey ∧ e.shiftKey = s.settings.hotkey.shiftKey ∧
      e.metaKey = s.settings.hotkey.metaKey) :
    (keydownStep e true s).st.enabled = false ∧
    (keydownStep e true s).st.isAutoPaused = false ∧
    (keydownStep e true s).st.isPauseLocked = false ∧
    (keydownStep e true s).st.timerId = none ∧
    (keydownStep e true s).armed = (clearTimer s).armed ∧
    (keydownStep e true s).subsVisible = true ∧
    (keydownStep e true s).videoPaused = false ∧
    (keydownStep e true s).playCount = s.playCount + 1 := by
  have hstep : keydownStep e true s =
      restoreUI (toggleSubtitles true (resumePlayback true
        { restoreUI s with
            st := { (restoreUI s).st with enabled := false }
            osd := (restoreUI s).osd ++ ["Primed Listening: OFF"] })) := by
    unfold keydownStep
    dsimp only
    rw [if_pos (by simpa using hhot)]
    simp only [restoreUI_enabled, hen, Bool.not_true]
    rw [if_pos trivial, if_pos (by simp [hap])]
    simp only [Bool.false_eq_true, if_false]
  refine ⟨by rw [hstep]; simp, by rw [hstep]; simp, by rw [hstep]; simp,
    by rw [hstep]; simp, ?_, by rw [hstep]; simp, by rw [hstep]; simp,
    by rw [hstep]; simp⟩
  rw [hstep]
  simp only [restoreUI_armed, toggleSubtitles_armed, resumePlayback_armed]
  exact clearTimer_armed_congr _ s (by simp) (by simp)

/-- C7 witness: Alt+P (the default hotkey) both in the concrete AutoPaused
state with a one-second timer pending and in the concrete Locked state
whose timer is already disarmed. -/
theorem disable_resumes_and_shows_subs_witness :
    (keydownStep altPKey true pausedSys).st.enabled = false ∧
    (keydownStep altPKey true pausedSys).st.timerId = none ∧
    (keydownStep altPKey true pausedSys).armed = (clearTimer pausedSys).armed ∧
    (keydownStep altPKey true pausedSys).subsVisible = true ∧
    (keydownStep altPKey true pausedSys).videoPaused = false ∧
    (keydownStep altPKey true lockedSys).st.enabled = false ∧
    (keydownStep altPKey true lockedSys).st.isAutoPaused = false ∧
    (keydownStep altPKey true lockedSys).st.isPauseLocked = false ∧
    (keydownStep altPKey true lockedSys).armed = (clearTimer lockedSys).armed ∧
    (keydownStep altPKey true lockedSys).subsVisible = true ∧
    (keydownStep altPKey true lockedSys).videoPaused = false ∧
    (keydownStep altPKey true lockedSys).playCount = lockedSys.playCount + 1 := by
  have h1 := disable_resumes_and_shows_subs pausedSys altPKey rfl rfl (by decide)
  have h2 := disable_resumes_and_shows_subs lockedSys altPKey rfl rfl (by decide)
  exact ⟨h1.1, h1.2.2.2.1, h1.2.2.2.2.1, h1.2.2.2.2.2.1, h1.2.2.2.2.2.2.1,
    h2.1, h2.2.1, h2.2.2.1, h2.2.2.2.2.1, h2.2.2.2.2.2.1, h2.2.2.2.2.2.2.1,
    h2.2.2.2.2.2.2.2⟩
